import Mathlib

/-!
Verification development for the local-library CRUD application.

The controllers (author, book, book-instance), the mongoose schemas
(Author, Book, BookInstance) and the express-validator pipelines are
shallowly embedded below.  The document store is represented as explicit
lists of records, and each controller handler becomes a pure function from
a store and the request data to a response together with the updated store.
-/

namespace LocalLibrary

/-- A validation failure produced by the express-validator layer: the
offending field together with its human-readable message. -/
structure FieldError where
  field : String
  msg : String
deriving DecidableEq, Repr

/-- Embedding of the `AuthorSchema` document (models/Author.js).  Dates are
represented as numeric codes (`Option Nat`); an absent optional date is
`none`. -/
structure Author where
  id : String
  first_name : String
  family_name : String
  date_of_birth : Option Nat
  date_of_death : Option Nat
deriving DecidableEq, Repr

/-- A Genre record (`id`, `name`).  Its own controller is out of scope; the
record shape is needed only for the book form's auxiliary lists. -/
structure Genre where
  id : String
  name : String
deriving DecidableEq, Repr

/-- Embedding of the `BookSchema` document (models/Book.js): `author` and the
`genre` elements are stored as reference identifiers. -/
structure Book where
  id : String
  title : String
  author : String
  summary : String
  isbn : String
  genre : List String
deriving DecidableEq, Repr

/-- Embedding of the `BookInstanceSchema` document: `book` is a reference
identifier, `due_back` a numeric date code. -/
structure BookInstance where
  id : String
  book : String
  imprint : String
  status : String
  due_back : Option Nat
deriving DecidableEq, Repr

/-- The document store: one collection per entity type, in natural
(insertion) order. -/
structure Store where
  authors : List Author
  books : List Book
  instances : List BookInstance
  genres : List Genre
deriving DecidableEq, Repr

/-! ### Sanitizers (express-validator `.trim()` / `.escape()`) -/

/-- The `.trim()` sanitizer: strip whitespace from both ends (computed on
the character list so that proofs can evaluate it). -/
def jsTrim (s : String) : String :=
  String.mk (((s.data.dropWhile Char.isWhitespace).reverse.dropWhile Char.isWhitespace).reverse)

/-- HTML-escaping of a single character, as performed by the `.escape()`
sanitizer (ampersand, angle brackets, quotes and slash become entities). -/
def escapeChar (c : Char) : String :=
  if c = '&' then "&amp;"
  else if c = '<' then "&lt;"
  else if c = '>' then "&gt;"
  else if c = '"' then "&quot;"
  else if c = Char.ofNat 39 then "&#x27;"
  else if c = '/' then "&#x2F;"
  else String.singleton c

/-- The `.escape()` sanitizer applied to a whole string. -/
def escapeHtml (s : String) : String :=
  String.join (s.toList.map escapeChar)

/-- The `isAlphanumeric()` check (default locale): nonempty and every
character a letter or a digit. -/
def isAlphanumericStr (s : String) : Bool :=
  !s.isEmpty && s.toList.all (fun c => c.isAlpha || c.isDigit)

/-- Splitting a character list at dashes (the separator structure of the
calendar-date form of ISO-8601). -/
def splitDash : List Char → List Char → List (List Char)
  | [], acc => [acc.reverse]
  | c :: rest, acc =>
    if c = '-' then acc.reverse :: splitDash rest []
    else splitDash rest (c :: acc)

/-- The numeric value of a list of decimal digit characters. -/
def digitsToNat (cs : List Char) : Nat :=
  cs.foldl (fun n c => n * 10 + (c.toNat - 48)) 0

/-- Modelled from the spec: the external validator's ISO-8601 date check
(`isISO8601().toDate()`), restricted to the calendar-date form
`YYYY-MM-DD`; a parseable value is converted to the numeric date code
`y * 10000 + m * 100 + d`, anything else is rejected. -/
def parseISODate (s : String) : Option Nat :=
  match splitDash s.data [] with
  | [y, m, d] =>
    if y.length = 4 && m.length = 2 && d.length = 2
        && y.all Char.isDigit && m.all Char.isDigit && d.all Char.isDigit
        && 1 ≤ digitsToNat m && digitsToNat m ≤ 12
        && 1 ≤ digitsToNat d && digitsToNat d ≤ 31 then
      some (digitsToNat y * 10000 + digitsToNat m * 100 + digitsToNat d)
    else none
  | _ => none

/-! ### Per-field validation chains -/

/-- Embedding of the name-field chain
`body(f).trim().isLength(min 1, max 100).escape().withMessage(m1).isAlphanumeric().withMessage(m2)`:
returns the sanitized value together with the failures tagged to `f`.
An absent field behaves as the empty string. -/
def validateName (f m1 m2 : String) (raw : Option String) : String × List FieldError :=
  let t := jsTrim (raw.getD "")
  let lenErr := if 1 ≤ t.length ∧ t.length ≤ 100 then [] else [⟨f, m1⟩]
  let v := escapeHtml t
  let alphaErr := if isAlphanumericStr v then [] else [⟨f, m2⟩]
  (v, lenErr ++ alphaErr)

/-- Embedding of the required-text chain
`body(f, m).trim().isLength(min 1).escape()`. -/
def validateRequired (f m : String) (raw : Option String) : String × List FieldError :=
  let t := jsTrim (raw.getD "")
  let lenErr := if 1 ≤ t.length then [] else [⟨f, m⟩]
  (escapeHtml t, lenErr)

/-- Embedding of the optional date chain
`body(f, m).optional(values falsy).isISO8601().toDate()`: a falsy raw value
(absent or empty string) skips the chain and the stored value is absent;
otherwise the value must parse as ISO-8601 and is converted to a date. -/
def validateDate (f m : String) (raw : Option String) : Option Nat × List FieldError :=
  match raw with
  | none => (none, [])
  | some s =>
    if s = "" then (none, [])
    else
      match parseISODate s with
      | some d => (some d, [])
      | none => (none, [⟨f, m⟩])

/-- Embedding of the status chain `body("status").escape()`: sanitize the
value when the field is present, produce no validation failure, and leave
an absent field absent (so the schema default can apply to it). -/
def validateStatus (raw : Option String) : Option String :=
  raw.map escapeHtml

/-! ### Persistence gateway operations

Modelled from the spec: the external document store (mongoose/MongoDB)
offers find-by-id, filtered find, find-one-by-fields, save, sorted find,
overwrite-by-id and delete-by-id per collection; finds scan the collection
in natural order. -/

/-- Modelled from the spec: `Author.findById(id)`. -/
def findAuthorById (store : Store) (id : String) : Option Author :=
  store.authors.find? (fun a => a.id == id)

/-- Modelled from the spec: `Book.findById(id)`. -/
def findBookById (store : Store) (id : String) : Option Book :=
  store.books.find? (fun b => b.id == id)

/-- Modelled from the spec: `BookInstance.findById(id)`. -/
def findInstanceById (store : Store) (id : String) : Option BookInstance :=
  store.instances.find? (fun i => i.id == id)

/-- Modelled from the spec: `Book.find(author := id)` — the books whose
author reference is `id`, in natural order. -/
def booksByAuthor (store : Store) (id : String) : List Book :=
  store.books.filter (fun b => b.author == id)

/-- Modelled from the spec: `BookInstance.find(book := id)` — the instances
whose book reference is `id`, in natural order. -/
def instancesByBook (store : Store) (id : String) : List BookInstance :=
  store.instances.filter (fun i => i.book == id)

/-- Modelled from the spec: the dedup lookup
`Author.findOne(first_name, family_name)` — the first stored author whose
name fields both match. -/
def findAuthorByName (store : Store) (fn fam : String) : Option Author :=
  store.authors.find? (fun a => a.first_name == fn && a.family_name == fam)

/-- Modelled from the spec: the dedup lookup `Book.findOne(title)`. -/
def findBookByTitle (store : Store) (t : String) : Option Book :=
  store.books.find? (fun b => b.title == t)

/-- Modelled from the spec: `doc.save()` on a fresh author document appends
it to the collection. -/
def saveAuthor (store : Store) (a : Author) : Store :=
  { store with authors := store.authors ++ [a] }

/-- Modelled from the spec: `doc.save()` on a fresh book document. -/
def saveBook (store : Store) (b : Book) : Store :=
  { store with books := store.books ++ [b] }

/-- Modelled from the spec: `doc.save()` on a fresh book-instance document. -/
def saveInstance (store : Store) (i : BookInstance) : Store :=
  { store with instances := store.instances ++ [i] }

/-- Modelled from the spec: `Author.findByIdAndUpdate(id, doc)` — overwrite
the record with identifier `id` and return the previous record, or return
`none` (and change nothing) when no record has that identifier. -/
def updateAuthorById (store : Store) (id : String) (a : Author) :
    Option Author × Store :=
  match store.authors.find? (fun x => x.id == id) with
  | some old =>
    (some old,
      { store with authors := store.authors.map (fun x => if x.id == id then a else x) })
  | none => (none, store)

/-- Modelled from the spec: `Book.findByIdAndUpdate(id, doc)`. -/
def updateBookById (store : Store) (id : String) (b : Book) :
    Option Book × Store :=
  match store.books.find? (fun x => x.id == id) with
  | some old =>
    (some old,
      { store with books := store.books.map (fun x => if x.id == id then b else x) })
  | none => (none, store)

/-- Modelled from the spec: `BookInstance.findByIdAndUpdate(id, doc)`. -/
def updateInstanceById (store : Store) (id : String) (i : BookInstance) :
    Option BookInstance × Store :=
  match store.instances.find? (fun x => x.id == id) with
  | some old =>
    (some old,
      { store with instances := store.instances.map (fun x => if x.id == id then i else x) })
  | none => (none, store)

/-- Modelled from the spec: `Author.findByIdAndRemove(id)`. -/
def removeAuthorById (store : Store) (id : String) : Store :=
  { store with authors := store.authors.filter (fun a => a.id ≠ id) }

/-- Modelled from the spec: `Book.findByIdAndRemove(id)`. -/
def removeBookById (store : Store) (id : String) : Store :=
  { store with books := store.books.filter (fun b => b.id ≠ id) }

/-- Modelled from the spec: `BookInstance.findByIdAndRemove(id)`. -/
def removeInstanceById (store : Store) (id : String) : Store :=
  { store with instances := store.instances.filter (fun i => i.id ≠ id) }

/-! ### Canonical URLs (the `url` schema virtuals) -/

/-- The Author `url` virtual. -/
def authorUrl (id : String) : String := "/catalog/author/" ++ id

/-- The Book `url` virtual. -/
def bookUrl (id : String) : String := "/catalog/book/" ++ id

/-- The BookInstance `url` virtual. -/
def instanceUrl (id : String) : String := "/catalog/bookinstance/" ++ id

/-- The Author `name` virtual: first name, a space, then family name, or the
empty string when either part is missing (falsy). -/
def authorName (a : Author) : String :=
  if a.first_name ≠ "" ∧ a.family_name ≠ "" then
    a.first_name ++ " " ++ a.family_name
  else ""

/-! ### Views and responses -/

/-- Render payloads, one constructor per view template, carrying the data
object the controller passes to `res.render`. -/
inductive ViewData where
  | authorList (title : String) (author_list : List Author)
  | authorDetail (title : String) (author : Author) (author_books : List Book)
  | authorForm (title : String) (author : Option Author) (errors : List FieldError)
  | authorDelete (title : String) (author : Option Author) (author_books : List Book)
  | bookList (title : String) (book_list : List Book)
  | bookDetail (title : String) (book : Book) (book_instances : List BookInstance)
  | bookForm (title : String) (authors : List Author) (genres : List Genre)
      (checked : List String) (book : Option Book) (errors : List FieldError)
  | bookDelete (title : String) (book : Option Book) (bookinstances : List BookInstance)
  | instanceList (title : String) (bookinstance_list : List BookInstance)
  | instanceDetail (title : String) (bookinstance : BookInstance)
  | instanceForm (title : String) (book_list : List Book) (selected_book : Option String)
      (bookinstance : Option BookInstance) (errors : List FieldError)
  | instanceDelete (title : String) (bookinstance : Option BookInstance)
deriving DecidableEq, Repr

/-- The response a handler hands to the HTTP boundary: a rendered view, a
redirect, an error forwarded via `next(err)` carrying a status hint, or the
TypeError raised by reading a field of a null persistence result. -/
inductive Response where
  | render (v : ViewData)
  | redirect (url : String)
  | error (status : Nat) (msg : String)
  | nullDeref
deriving DecidableEq, Repr

/-! ### Form payloads -/

/-- Raw author form fields as submitted (absent field = `none`). -/
structure AuthorForm where
  first_name : Option String
  family_name : Option String
  date_of_birth : Option String
  date_of_death : Option String
deriving DecidableEq, Repr

/-- The raw shape of the submitted genre field before the coercion
middleware runs: missing, a single scalar value, or already an array. -/
inductive GenreRaw where
  | absent
  | scalar (s : String)
  | array (l : List String)
deriving DecidableEq, Repr

/-- Raw book form fields as submitted. -/
structure BookForm where
  title : Option String
  author : Option String
  summary : Option String
  isbn : Option String
  genre : GenreRaw
deriving DecidableEq, Repr

/-- Raw book-instance form fields as submitted. -/
structure InstanceForm where
  book : Option String
  imprint : Option String
  status : Option String
  due_back : Option String
deriving DecidableEq, Repr

/-- Embedding of the genre coercion middleware of `book_create_post` /
`book_update_post`: when `req.body.genre` is not an array, an undefined
value becomes `[]` and a scalar value `g` becomes `new Array(g) = [g]`; an
array is left untouched. -/
def normalizeGenre : GenreRaw → List String
  | .absent => []
  | .scalar s => [s]
  | .array l => l

/-! ### Sorted fetches

The gateway's `.sort(key)` sorts ascending by the named field; documents
with equal keys keep their natural relative order, which a stable insertion
sort models. -/

/-- Lexicographic less-or-equal on character lists, comparing code points
(the string order the document store applies to sort keys). -/
def charListLe : List Char → List Char → Bool
  | [], _ => true
  | _ :: _, [] => false
  | a :: as, b :: bs =>
    if a.toNat < b.toNat then true
    else if a.toNat = b.toNat then charListLe as bs
    else false

/-- Lexicographic less-or-equal on strings. -/
def strLe (a b : String) : Bool :=
  charListLe a.data b.data

theorem charListLe_total : ∀ as bs : List Char,
    charListLe as bs = true ∨ charListLe bs as = true := by
  intro as
  induction as with
  | nil => intro bs; left; rfl
  | cons a as ih =>
    intro bs
    cases bs with
    | nil => right; rfl
    | cons b bs =>
      rcases Nat.lt_trichotomy a.toNat b.toNat with h | h | h
      · left; simp [charListLe, h]
      · rcases ih bs with h2 | h2
        · left; simp [charListLe, h, h2]
        · right; simp [charListLe, h.symm, h2]
      · right; simp [charListLe, h]

theorem charListLe_trans : ∀ as bs cs : List Char,
    charListLe as bs = true → charListLe bs cs = true → charListLe as cs = true := by
  intro as
  induction as with
  | nil => intros; rfl
  | cons a as ih =>
    intro bs cs h1 h2
    cases bs with
    | nil => simp [charListLe] at h1
    | cons b bs =>
      cases cs with
      | nil => simp [charListLe] at h2
      | cons c cs =>
        simp only [charListLe] at h1 h2 ⊢
        by_cases hab : a.toNat < b.toNat
        · by_cases hbc : b.toNat < c.toNat
          · simp [Nat.lt_trans hab hbc]
          · rw [if_neg hbc] at h2
            by_cases hbc2 : b.toNat = c.toNat
            · have : a.toNat < c.toNat := hbc2 ▸ hab
              simp [this]
            · rw [if_neg hbc2] at h2; exact absurd h2 (by simp)
        · rw [if_neg hab] at h1
          by_cases hab2 : a.toNat = b.toNat
          · rw [if_pos hab2] at h1
            by_cases hbc : b.toNat < c.toNat
            · have : a.toNat < c.toNat := hab2 ▸ hbc
              simp [this]
            · rw [if_neg hbc] at h2
              by_cases hbc2 : b.toNat = c.toNat
              · rw [if_pos hbc2] at h2
                have hac : a.toNat = c.toNat := hab2.trans hbc2
                have hnlt : ¬ a.toNat < c.toNat := by
                  rw [hac]; exact Nat.lt_irrefl _
                rw [if_neg hnlt, if_pos hac]
                exact ih bs cs h1 h2
              · rw [if_neg hbc2] at h2; exact absurd h2 (by simp)
          · rw [if_neg hab2] at h1; exact absurd h1 (by simp)

theorem strLe_total (a b : String) : strLe a b = true ∨ strLe b a = true :=
  charListLe_total a.data b.data

theorem strLe_trans {a b c : String} (h1 : strLe a b = true) (h2 : strLe b c = true) :
    strLe a c = true :=
  charListLe_trans a.data b.data c.data h1 h2

/-- The `sort("first_name")` comparison on authors. -/
def authorFirstNameLe (a b : Author) : Prop :=
  strLe a.first_name b.first_name = true

instance : DecidableRel authorFirstNameLe :=
  fun a b => inferInstanceAs (Decidable (strLe a.first_name b.first_name = true))

instance : IsTotal Author authorFirstNameLe :=
  ⟨fun a b => strLe_total a.first_name b.first_name⟩

instance : IsTrans Author authorFirstNameLe :=
  ⟨fun _ _ _ h1 h2 => strLe_trans h1 h2⟩

/-- The `sort("title")` comparison on books. -/
def bookTitleLe (a b : Book) : Prop :=
  strLe a.title b.title = true

instance : DecidableRel bookTitleLe :=
  fun a b => inferInstanceAs (Decidable (strLe a.title b.title = true))

instance : IsTotal Book bookTitleLe :=
  ⟨fun a b => strLe_total a.title b.title⟩

instance : IsTrans Book bookTitleLe :=
  ⟨fun _ _ _ h1 h2 => strLe_trans h1 h2⟩

/-- The `sort("status")` comparison on book instances. -/
def instanceStatusLe (a b : BookInstance) : Prop :=
  strLe a.status b.status = true

instance : DecidableRel instanceStatusLe :=
  fun a b => inferInstanceAs (Decidable (strLe a.status b.status = true))

/-- Modelled from the spec: `Author.find().sort("first_name")` — all authors
sorted ascending by `first_name`. -/
def authorListSorted (store : Store) : List Author :=
  List.insertionSort authorFirstNameLe store.authors

/-- Modelled from the spec: `Book.find(title author).sort("title")` — all
books sorted ascending by `title`. -/
def bookListSorted (store : Store) : List Book :=
  List.insertionSort bookTitleLe store.books

/-- Modelled from the spec: `BookInstance.find(book := id).sort("status")`. -/
def instancesByBookSorted (store : Store) (id : String) : List BookInstance :=
  List.insertionSort instanceStatusLe (instancesByBook store id)

/-! ### Author controller -/

/-- The aggregated validation failures of the author form, in middleware
order: first name, family name, birth date, death date. -/
def authorFormErrors (f : AuthorForm) : List FieldError :=
  (validateName "first_name" "First name must be specified."
      "First name has non-alphanumeric characters." f.first_name).2
    ++ (validateName "family_name" "Family name must be specified."
      "Family name has non-alphanumeric characters." f.family_name).2
    ++ (validateDate "date_of_birth" "Invalid value" f.date_of_birth).2
    ++ (validateDate "date_of_death" "Invalid value" f.date_of_death).2

/-- The candidate author document built from the sanitized form fields
(`new Author(first_name, family_name, date_of_birth, date_of_death)`). -/
def mkAuthorCandidate (f : AuthorForm) (id : String) : Author :=
  { id := id
    first_name := (validateName "first_name" "First name must be specified."
      "First name has non-alphanumeric characters." f.first_name).1
    family_name := (validateName "family_name" "Family name must be specified."
      "Family name has non-alphanumeric characters." f.family_name).1
    date_of_birth := (validateDate "date_of_birth" "Invalid value" f.date_of_birth).1
    date_of_death := (validateDate "date_of_death" "Invalid value" f.date_of_death).1 }

/-- Embedding of `author_list`: fetch all authors sorted ascending by the
`first_name` field and render them. -/
def author_list (store : Store) : Response :=
  .render (.authorList "Author List" (authorListSorted store))

/-- Embedding of `author_detail`: fetch the author and their books; a
missing author is forwarded as a 404-tagged error and nothing is written. -/
def author_detail (store : Store) (pid : String) : Response × Store :=
  let author := findAuthorById store pid
  let books := booksByAuthor store pid
  match author with
  | none => (.error 404 "Author not found", store)
  | some a => (.render (.authorDetail "Author Detail" a books), store)

/-- Embedding of `author_create_post` (the processing middleware after the
validation chains): on failures re-render the form with the candidate; on
success look up an existing author with the same sanitized name pair and
redirect to it, otherwise save the candidate and redirect to it. -/
def author_create_post (store : Store) (f : AuthorForm) (freshId : String) :
    Response × Store :=
  let errors := authorFormErrors f
  let author := mkAuthorCandidate f freshId
  if errors ≠ [] then
    (.render (.authorForm "Create Author" (some author) errors), store)
  else
    match findAuthorByName store author.first_name author.family_name with
    | some authorExists => (.redirect (authorUrl authorExists.id), store)
    | none => (.redirect (authorUrl author.id), saveAuthor store author)

/-- Embedding of `author_delete_get`: the handler lacks a `return` after the
missing-author redirect, so the redirect is the first (and effective)
response in that case; otherwise the dependents-bearing view is rendered. -/
def author_delete_get (store : Store) (pid : String) : Response :=
  let books := booksByAuthor store pid
  match findAuthorById store pid with
  | none => .redirect "/catalog/authors"
  | some a => .render (.authorDelete "Delete Author" (some a) books)

/-- Embedding of `author_delete_post`: the dependents check reads the author
and books of the path parameter `pid`, while the removal targets the
(trimmed) form field `authorid`; the `authorid` validation chain's result is
never consulted. -/
def author_delete_post (store : Store) (pid : String) (authorid : Option String) :
    Response × Store :=
  let author := findAuthorById store pid
  let books := booksByAuthor store pid
  if books.length > 0 then
    (.render (.authorDelete "Delete Author" author books), store)
  else
    (.redirect "/catalog/authors", removeAuthorById store (jsTrim (authorid.getD "")))

/-- Embedding of `author_update_get`. -/
def author_update_get (store : Store) (pid : String) : Response :=
  match findAuthorById store pid with
  | none => .error 404 "Author not found"
  | some a => .render (.authorForm "Update Author" (some a) [])

/-- Embedding of `author_update_post`: validate as in create, build the
candidate with the existing id, then call `findByIdAndUpdate` without any
existence check and immediately read `.url` on its result — a null result
raises the TypeError embedded as `Response.nullDeref`. -/
def author_update_post (store : Store) (pid : String) (f : AuthorForm) :
    Response × Store :=
  let errors := authorFormErrors f
  let author := mkAuthorCandidate f pid
  if errors ≠ [] then
    (.render (.authorForm "Update Author" (some author) errors), store)
  else
    match updateAuthorById store pid author with
    | (some theAuthor, store') => (.redirect (authorUrl theAuthor.id), store')
    | (none, store') => (.nullDeref, store')

/-! ### Book controller -/

/-- The aggregated validation failures of the book form, in middleware
order: title, author, summary, isbn (the isbn message differs between the
create and update handlers, so it is a parameter); the `genre.*` chain only
escapes and never fails. -/
def bookFormErrors (isbnMsg : String) (f : BookForm) : List FieldError :=
  (validateRequired "title" "Title must not be empty." f.title).2
    ++ (validateRequired "author" "Author must not be empty." f.author).2
    ++ (validateRequired "summary" "Summary must not be empty." f.summary).2
    ++ (validateRequired "isbn" isbnMsg f.isbn).2

/-- The candidate book document built from the sanitized form fields: the
genre array is first coerced by the middleware and then each element is
escaped by the `genre.*` chain. -/
def mkBookCandidate (f : BookForm) (id : String) : Book :=
  { id := id
    title := (validateRequired "title" "Title must not be empty." f.title).1
    author := (validateRequired "author" "Author must not be empty." f.author).1
    summary := (validateRequired "summary" "Summary must not be empty." f.summary).1
    isbn := (validateRequired "isbn" "ISBN must not be empty." f.isbn).1
    genre := (normalizeGenre f.genre).map escapeHtml }

/-- The genres of the auxiliary list that the form re-render marks as
checked: those whose id occurs in the candidate's genre array. -/
def checkedGenres (store : Store) (b : Book) : List String :=
  (store.genres.filter (fun g => b.genre.contains g.id)).map (fun g => g.id)

/-- Embedding of `book_list`: all books sorted ascending by `title`. -/
def book_list (store : Store) : Response :=
  .render (.bookList "Book List" (bookListSorted store))

/-- Embedding of `book_detail`: fetch the book and its instances (sorted by
status); a missing book is forwarded as a 404-tagged error, no write. -/
def book_detail (store : Store) (pid : String) : Response × Store :=
  let book := findBookById store pid
  let bookInstances := instancesByBookSorted store pid
  match book with
  | none => (.error 404 "Book not found", store)
  | some b => (.render (.bookDetail b.title b bookInstances), store)

/-- Embedding of `book_create_post` (the processing middleware): on failures
re-render the form with the auxiliary author/genre lists and the candidate;
on success look up an existing book with the same sanitized title and
redirect to it, otherwise save the candidate and redirect to it. -/
def book_create_post (store : Store) (f : BookForm) (freshId : String) :
    Response × Store :=
  let errors := bookFormErrors "ISBN must not be empty." f
  let book := mkBookCandidate f freshId
  if errors ≠ [] then
    (.render (.bookForm "Create Book" store.authors store.genres
      (checkedGenres store book) (some book) errors), store)
  else
    match findBookByTitle store book.title with
    | some bookExists => (.redirect (bookUrl bookExists.id), store)
    | none => (.redirect (bookUrl book.id), saveBook store book)

/-- Embedding of `book_delete_get`: as with the author variant, the
missing-book redirect is the first response sent (missing `return`). -/
def book_delete_get (store : Store) (pid : String) : Response :=
  let bookInstances := instancesByBook store pid
  match findBookById store pid with
  | none => .redirect "/catalog/books"
  | some b => .render (.bookDelete "Delete Book" (some b) bookInstances)

/-- Embedding of `book_delete_post`: the dependents check reads the book and
instances of the path parameter `pid`, while the removal targets the
(trimmed) form field `bookid`; the `bookid` validation chain's result is
never consulted. -/
def book_delete_post (store : Store) (pid : String) (bookid : Option String) :
    Response × Store :=
  let book := findBookById store pid
  let bookInstances := instancesByBook store pid
  if bookInstances.length > 0 then
    (.render (.bookDelete "Delete Book" book bookInstances), store)
  else
    (.redirect "/catalog/books", removeBookById store (jsTrim (bookid.getD "")))

/-- Embedding of `book_update_get`. -/
def book_update_get (store : Store) (pid : String) : Response :=
  match findBookById store pid with
  | none => .error 404 "Book not found"
  | some b =>
    .render (.bookForm "Update Book" store.authors store.genres
      (checkedGenres store b) (some b) [])

/-- Embedding of `book_update_post`: validate as in create (isbn message
without the final period), build the candidate with the existing id, then
call `findByIdAndUpdate` without any existence check and immediately read
`.url` on its result — a null result raises the embedded TypeError. -/
def book_update_post (store : Store) (pid : String) (f : BookForm) :
    Response × Store :=
  let errors := bookFormErrors "ISBN must not be empty" f
  let book := mkBookCandidate f pid
  if errors ≠ [] then
    (.render (.bookForm "Update Book" store.authors store.genres
      (checkedGenres store book) (some book) errors), store)
  else
    match updateBookById store pid book with
    | (some thebook, store') => (.redirect (bookUrl thebook.id), store')
    | (none, store') => (.nullDeref, store')

/-! ### BookInstance controller -/

/-- The aggregated validation failures of the book-instance form, in
middleware order: book, imprint, status (never fails), due date. -/
def instanceFormErrors (f : InstanceForm) : List FieldError :=
  (validateRequired "book" "Book must be specified" f.book).2
    ++ (validateRequired "imprint" "Imprint must be specified" f.imprint).2
    ++ (validateDate "due_back" "Invalid date" f.due_back).2

/-- The candidate book-instance document built by `new BookInstance(...)`
from the sanitized fields, with the `BookInstanceSchema` rules applied: a
field the form left undefined receives its schema default — `status`
becomes Maintenance and `due_back` the fixed module-load `Date.now()`
timestamp `schemaLoadTime` (the same defaults `mkBookInstanceDoc` embeds) —
while an empty-string `due_back`, skipped by the validation chain, is cast
by the schema's date caster to an absent (null) value, to which no default
applies. -/
def mkInstanceCandidate (schemaLoadTime : Nat) (f : InstanceForm) (id : String) :
    BookInstance :=
  { id := id
    book := (validateRequired "book" "Book must be specified" f.book).1
    imprint := (validateRequired "imprint" "Imprint must be specified" f.imprint).1
    status := (validateStatus f.status).getD "Maintenance"
    due_back :=
      match f.due_back with
      | none => some schemaLoadTime
      | some s => (validateDate "due_back" "Invalid date" (some s)).1 }

/-- Embedding of `bookinstance_list`: `BookInstance.find(all)` with no sort
clause — the instances are returned in natural (store) order. -/
def bookinstance_list (store : Store) : Response :=
  .render (.instanceList "Book Instance List" store.instances)

/-- Embedding of `bookinstance_detail`: a missing instance is forwarded as a
404-tagged error, no write. -/
def bookinstance_detail (store : Store) (pid : String) : Response × Store :=
  match findInstanceById store pid with
  | none => (.error 404 "Book copy not found", store)
  | some i => (.render (.instanceDetail "Book:" i), store)

/-- Embedding of `bookinstance_create_post`: on failures re-render the form
with the book list and the candidate; on success always save (no dedup).
The first parameter is the module-load timestamp the schema default
captures. -/
def bookinstance_create_post (schemaLoadTime : Nat) (store : Store)
    (f : InstanceForm) (freshId : String) : Response × Store :=
  let errors := instanceFormErrors f
  let bookInstance := mkInstanceCandidate schemaLoadTime f freshId
  if errors ≠ [] then
    (.render (.instanceForm "Create BookInstance" store.books
      (some bookInstance.book) (some bookInstance) errors), store)
  else
    (.redirect (instanceUrl bookInstance.id), saveInstance store bookInstance)

/-- Embedding of `bookinstance_delete_get`: the missing-instance redirect is
the first response sent (missing `return`). -/
def bookinstance_delete_get (store : Store) (pid : String) : Response :=
  match findInstanceById store pid with
  | none => .redirect "/catalog/bookinstances"
  | some i => .render (.instanceDelete "Delete Copy" (some i))

/-- Embedding of `bookinstance_delete_post`: the error branch sends its
redirect without a `return`, so the removal of the (trimmed) form field
`bookinstanceid` executes on both branches, and the client observes the
same redirect either way; there is no dependents check. -/
def bookinstance_delete_post (store : Store) (bookinstanceid : Option String) :
    Response × Store :=
  let v := jsTrim (bookinstanceid.getD "")
  let errors := if 1 ≤ v.length then [] else [(⟨"bookinstanceid", "Book Instance is required"⟩ : FieldError)]
  if errors ≠ [] then
    (.redirect "/catalog/bookinstances", removeInstanceById store v)
  else
    (.redirect "/catalog/bookinstances", removeInstanceById store v)

/-- Embedding of `bookinstance_update_get`. -/
def bookinstance_update_get (store : Store) (pid : String) : Response :=
  match findInstanceById store pid with
  | none => .error 404 "No Book Instance Found"
  | some i =>
    .render (.instanceForm "Update BookInstance" store.books none (some i) [])

/-- Embedding of `bookinstance_update_post`: validate as in create, build
the candidate with the existing id, then call `findByIdAndUpdate` without
any existence check and immediately read `.url` on its result — a null
result raises the embedded TypeError.  The first parameter is the
module-load timestamp the schema default captures. -/
def bookinstance_update_post (schemaLoadTime : Nat) (store : Store) (pid : String)
    (f : InstanceForm) : Response × Store :=
  let errors := instanceFormErrors f
  let bookInstance := mkInstanceCandidate schemaLoadTime f pid
  if errors ≠ [] then
    (.render (.instanceForm "Update BookInstance" store.books
      (some bookInstance.book) (some bookInstance) errors), store)
  else
    match updateInstanceById store pid bookInstance with
    | (some theBookInstance, store') => (.redirect (instanceUrl theBookInstance.id), store')
    | (none, store') => (.nullDeref, store')

/-! ### Schema-level document construction (models/Author.js, BookInstance part) -/

/-- Embedding of `BookInstanceSchema`'s default handling when a new document
is created: `status` defaults to Maintenance, and `due_back` defaults to the
value of the expression `Date.now()` — which the schema definition calls
once at module load, so the default is the fixed timestamp
`schemaLoadTime`, not the time the document is created. -/
def mkBookInstanceDoc (schemaLoadTime : Nat) (id b imprint : String)
    (status : Option String) (due_back : Option Nat) : BookInstance :=
  { id := id
    book := b
    imprint := imprint
    status := status.getD "Maintenance"
    due_back := some (due_back.getD schemaLoadTime) }

/-! ### Claims -/

/-- Claim C2: every Author, Book, or BookInstance detail request whose
identifier matches no stored record signals a not-found condition (an error
tagged with status 404 passed to the boundary) and performs no write to the
store. -/
theorem claim_C2 (store : Store) (id : String) :
    (findAuthorById store id = none →
      author_detail store id = (.error 404 "Author not found", store)) ∧
    (findBookById store id = none →
      book_detail store id = (.error 404 "Book not found", store)) ∧
    (findInstanceById store id = none →
      bookinstance_detail store id = (.error 404 "Book copy not found", store)) := by
  refine ⟨fun h => ?_, fun h => ?_, fun h => ?_⟩
  · simp [author_detail, h]
  · simp [book_detail, h]
  · simp [bookinstance_detail, h]

theorem claim_C2_witness :
    findAuthorById (⟨[], [], [], []⟩ : Store) "x" = none ∧
    author_detail (⟨[], [], [], []⟩ : Store) "x"
        = (.error 404 "Author not found", (⟨[], [], [], []⟩ : Store)) ∧
    book_detail (⟨[], [], [], []⟩ : Store) "x"
        = (.error 404 "Book not found", (⟨[], [], [], []⟩ : Store)) ∧
    bookinstance_detail (⟨[], [], [], []⟩ : Store) "x"
        = (.error 404 "Book copy not found", (⟨[], [], [], []⟩ : Store)) := by
  have h := claim_C2 (⟨[], [], [], []⟩ : Store) "x"
  exact ⟨by decide, h.1 (by decide), h.2.1 (by decide), h.2.2 (by decide)⟩

/-- Claim C4: for every Book create or update submission, the genre field is
normalized before validation: an absent genre becomes the empty list, a
single scalar value becomes the one-element list, and a value that is
already a list is left unchanged; the candidate book carries the normalized
list with each element escaped by the `genre.*` chain. -/
theorem claim_C4 :
    normalizeGenre .absent = [] ∧
    (∀ s, normalizeGenre (.scalar s) = [s]) ∧
    (∀ l, normalizeGenre (.array l) = l) ∧
    (∀ (f : BookForm) (id : String),
      (mkBookCandidate f id).genre = (normalizeGenre f.genre).map escapeHtml) :=
  ⟨rfl, fun _ => rfl, fun _ => rfl, fun _ _ => rfl⟩

/-- Claim C9: every BookInstance delete POST removes the record named by the
(trimmed) submitted `bookinstanceid` unconditionally — there is no
dependents check, and the removal happens on the validation-failure branch
as well as on the success branch, with the same redirect either way. -/
theorem claim_C9 (store : Store) (bookinstanceid : Option String) :
    (bookinstance_delete_post store bookinstanceid).2
        = removeInstanceById store (jsTrim (bookinstanceid.getD "")) ∧
    (bookinstance_delete_post store bookinstanceid).1
        = .redirect "/catalog/bookinstances" := by
  unfold bookinstance_delete_post
  dsimp only
  split
  · exact ⟨rfl, rfl⟩
  · exact ⟨rfl, rfl⟩

/-- Claim C8 (code bug): the schema writes `default: Date.now()`, calling
`Date.now` once when the schema module loads; every BookInstance created
without an explicit `due_back` therefore stores the fixed module-load
timestamp, not the time of the record's creation. -/
theorem claim_C8 (schemaLoadTime creationTime : Nat) (id b imprint : String)
    (st : Option String) (h : creationTime ≠ schemaLoadTime) :
    (mkBookInstanceDoc schemaLoadTime id b imprint st none).due_back
        = some schemaLoadTime ∧
    (mkBookInstanceDoc schemaLoadTime id b imprint st none).due_back
        ≠ some creationTime := by
  refine ⟨rfl, fun hc => h ?_⟩
  simpa [mkBookInstanceDoc] using hc.symm

theorem claim_C8_witness :
    (100 : Nat) ≠ 0 ∧
    (mkBookInstanceDoc 0 "i1" "b1" "imp" none none).due_back = some 0 ∧
    (mkBookInstanceDoc 0 "i1" "b1" "imp" none none).due_back ≠ some 100 := by
  have h := claim_C8 0 100 "i1" "b1" "imp" none (by decide)
  exact ⟨by decide, h.1, h.2⟩

/-- Claim C5 (counterexample): an absent `due_back` on a submission that
passes validation is not stored as absent — `new BookInstance(...)` fills
it with the schema default, the fixed module-load timestamp (here 5), and
the saved record carries that timestamp. -/
theorem claim_C5_cex :
    instanceFormErrors ⟨some "b1", some "imp", none, none⟩ = [] ∧
    (mkInstanceCandidate 5 (⟨some "b1", some "imp", none, none⟩ : InstanceForm)
        "i1").due_back = some 5 ∧
    (mkInstanceCandidate 5 (⟨some "b1", some "imp", none, none⟩ : InstanceForm)
        "i1").due_back ≠ none ∧
    (bookinstance_create_post 5 (⟨[], [], [], []⟩ : Store)
        ⟨some "b1", some "imp", none, none⟩ "i1").2.instances
      = [⟨"i1", "b1", "imp", "Maintenance", some 5⟩] := by
  decide

/-- Claim C5 (amended): for every date field, an empty-string raw value is
accepted with no validation failure and stored as absent, a non-empty value
that does not parse as ISO-8601 produces exactly one failure tagged to that
field, and a parseable value is converted to a date; an absent
date_of_birth or date_of_death is likewise stored as absent, but an absent
`due_back` is filled by the schema default — the fixed module-load
timestamp — rather than stored as absent. -/
theorem claim_C5 (fld m : String) :
    (validateDate fld m none = (none, []) ∧ validateDate fld m (some "") = (none, [])) ∧
    (∀ s, s ≠ "" → parseISODate s = none →
      validateDate fld m (some s) = (none, [⟨fld, m⟩])) ∧
    (∀ s d, parseISODate s = some d →
      validateDate fld m (some s) = (some d, [])) ∧
    (∀ (f : AuthorForm) (id : String),
      f.date_of_birth = none ∨ f.date_of_birth = some "" →
      (mkAuthorCandidate f id).date_of_birth = none) ∧
    (∀ (lt : Nat) (f : InstanceForm) (id : String), f.due_back = some "" →
      (mkInstanceCandidate lt f id).due_back = none) ∧
    (∀ (lt : Nat) (f : InstanceForm) (id : String), f.due_back = none →
      (mkInstanceCandidate lt f id).due_back = some lt) := by
  refine ⟨⟨rfl, rfl⟩, fun s hs hp => ?_, fun s d hp => ?_, fun f id hf => ?_,
    fun lt f id hf => ?_, fun lt f id hf => ?_⟩
  · simp [validateDate, hs, hp]
  · have hs : s ≠ "" := by
      intro he
      rw [he] at hp
      simp [parseISODate, splitDash] at hp
    simp [validateDate, hs, hp]
  · rcases hf with hf | hf
    · simp [mkAuthorCandidate, hf, validateDate]
    · simp [mkAuthorCandidate, hf, validateDate]
  · simp [mkInstanceCandidate, hf, validateDate]
  · simp [mkInstanceCandidate, hf]

theorem claim_C5_witness :
    ("not-a-date" : String) ≠ "" ∧
    parseISODate "not-a-date" = none ∧
    parseISODate "2020-01-31" = some 20200131 ∧
    validateDate "date_of_birth" "Invalid value" (some "not-a-date")
        = (none, [⟨"date_of_birth", "Invalid value"⟩]) ∧
    validateDate "due_back" "Invalid date" (some "") = (none, []) ∧
    validateDate "due_back" "Invalid date" (some "2020-01-31") = (some 20200131, []) ∧
    (mkAuthorCandidate ⟨some "John", some "Smith", some "", none⟩ "i1").date_of_birth
        = none ∧
    (mkInstanceCandidate 5 ⟨some "b1", some "imp", none, some ""⟩ "i1").due_back = none ∧
    (mkInstanceCandidate 5 ⟨some "b1", some "imp", none, none⟩ "i1").due_back = some 5 := by
  have h1 := claim_C5 "date_of_birth" "Invalid value"
  have h2 := claim_C5 "due_back" "Invalid date"
  exact ⟨by decide, by decide, by decide,
    h1.2.1 "not-a-date" (by decide) (by decide),
    h2.1.2, h2.2.2.1 "2020-01-31" 20200131 (by decide),
    h1.2.2.2.1 ⟨some "John", some "Smith", some "", none⟩ "i1" (Or.inr rfl),
    h2.2.2.2.2.1 5 ⟨some "b1", some "imp", none, some ""⟩ "i1" rfl,
    h2.2.2.2.2.2 5 ⟨some "b1", some "imp", none, none⟩ "i1" rfl⟩

/-- Claim C3: a delete POST on an Author that exists and has at least one
Book referencing it (and likewise a Book with at least one BookInstance)
leaves the store unchanged and responds with exactly the dependents-bearing
view the confirm-delete GET renders. -/
theorem claim_C3 (store : Store) (pid : String) (aid : Option String) :
    (∀ a, findAuthorById store pid = some a → booksByAuthor store pid ≠ [] →
      (author_delete_post store pid aid).1 = author_delete_get store pid ∧
      (author_delete_post store pid aid).2 = store) ∧
    (∀ b, findBookById store pid = some b → instancesByBook store pid ≠ [] →
      (book_delete_post store pid aid).1 = book_delete_get store pid ∧
      (book_delete_post store pid aid).2 = store) := by
  constructor
  · intro a ha hb
    have hlen : 0 < (booksByAuthor store pid).length := List.length_pos.mpr hb
    constructor
    · simp [author_delete_post, author_delete_get, ha, hlen]
    · simp [author_delete_post, hlen]
  · intro b hb hi
    have hlen : 0 < (instancesByBook store pid).length := List.length_pos.mpr hi
    constructor
    · simp [book_delete_post, book_delete_get, hb, hlen]
    · simp [book_delete_post, hlen]

theorem claim_C3_witness :
    findAuthorById
        (⟨[⟨"a1", "Ann", "Zed", none, none⟩],
          [⟨"b1", "T", "a1", "S", "9", []⟩], [], []⟩ : Store) "a1"
      = some ⟨"a1", "Ann", "Zed", none, none⟩ ∧
    booksByAuthor
        (⟨[⟨"a1", "Ann", "Zed", none, none⟩],
          [⟨"b1", "T", "a1", "S", "9", []⟩], [], []⟩ : Store) "a1" ≠ [] ∧
    (author_delete_post
        (⟨[⟨"a1", "Ann", "Zed", none, none⟩],
          [⟨"b1", "T", "a1", "S", "9", []⟩], [], []⟩ : Store) "a1" (some "a1")).1
      = author_delete_get
        (⟨[⟨"a1", "Ann", "Zed", none, none⟩],
          [⟨"b1", "T", "a1", "S", "9", []⟩], [], []⟩ : Store) "a1" ∧
    (author_delete_post
        (⟨[⟨"a1", "Ann", "Zed", none, none⟩],
          [⟨"b1", "T", "a1", "S", "9", []⟩], [], []⟩ : Store) "a1" (some "a1")).2
      = (⟨[⟨"a1", "Ann", "Zed", none, none⟩],
          [⟨"b1", "T", "a1", "S", "9", []⟩], [], []⟩ : Store) := by
  have h := (claim_C3
    (⟨[⟨"a1", "Ann", "Zed", none, none⟩],
      [⟨"b1", "T", "a1", "S", "9", []⟩], [], []⟩ : Store) "a1" (some "a1")).1
    ⟨"a1", "Ann", "Zed", none, none⟩ (by decide) (by decide)
  exact ⟨by decide, by decide, h.1, h.2⟩

/-- Claim C6: an update POST (Author, Book, BookInstance) whose identifier
matches no stored record and whose fields pass validation reaches the
null-dereference branch — `findByIdAndUpdate` returns a missing result, the
handler proceeds as on success and reading `.url` on the missing result
fails; no explicit 404-tagged not-found result is produced and the store is
unchanged. -/
theorem claim_C6 (store : Store) (pid : String) :
    (∀ f : AuthorForm, authorFormErrors f = [] → findAuthorById store pid = none →
      author_update_post store pid f = (.nullDeref, store)) ∧
    (∀ f : BookForm, bookFormErrors "ISBN must not be empty" f = [] →
      findBookById store pid = none →
      book_update_post store pid f = (.nullDeref, store)) ∧
    (∀ (lt : Nat) (f : InstanceForm), instanceFormErrors f = [] →
      findInstanceById store pid = none →
      bookinstance_update_post lt store pid f = (.nullDeref, store)) := by
  refine ⟨fun f he hf => ?_, fun f he hf => ?_, fun lt f he hf => ?_⟩
  · unfold findAuthorById at hf
    simp [author_update_post, he, updateAuthorById, hf]
  · unfold findBookById at hf
    simp [book_update_post, he, updateBookById, hf]
  · unfold findInstanceById at hf
    simp [bookinstance_update_post, he, updateInstanceById, hf]

theorem claim_C6_witness :
    authorFormErrors ⟨some "John", some "Smith", none, none⟩ = [] ∧
    findAuthorById (⟨[], [], [], []⟩ : Store) "missing" = none ∧
    author_update_post (⟨[], [], [], []⟩ : Store) "missing"
        ⟨some "John", some "Smith", none, none⟩
      = (.nullDeref, (⟨[], [], [], []⟩ : Store)) ∧
    book_update_post (⟨[], [], [], []⟩ : Store) "missing"
        ⟨some "T", some "a1", some "S", some "9", .absent⟩
      = (.nullDeref, (⟨[], [], [], []⟩ : Store)) ∧
    bookinstance_update_post 5 (⟨[], [], [], []⟩ : Store) "missing"
        ⟨some "b1", some "imp", none, none⟩
      = (.nullDeref, (⟨[], [], [], []⟩ : Store)) := by
  have h := claim_C6 (⟨[], [], [], []⟩ : Store) "missing"
  exact ⟨by decide, by decide,
    h.1 ⟨some "John", some "Smith", none, none⟩ (by decide) (by decide),
    h.2.1 ⟨some "T", some "a1", some "S", some "9", .absent⟩ (by decide) (by decide),
    h.2.2 5 ⟨some "b1", some "imp", none, none⟩ (by decide) (by decide)⟩

/-- Claim C10: in the Author and Book delete POST handlers the dependents
check inspects the entity named by the URL path parameter while the removal
targets the entity named by the form body field; whenever the
path-identified entity has zero dependents, the body-identified record is
removed with no dependents check of its own — in particular (see the
witness) an entity that has dependents is deleted when the two identifiers
differ. -/
theorem claim_C10 (store : Store) (pid : String) (aid : Option String) :
    (booksByAuthor store pid = [] →
      (author_delete_post store pid aid).2
        = removeAuthorById store (jsTrim (aid.getD ""))) ∧
    (instancesByBook store pid = [] →
      (book_delete_post store pid aid).2
        = removeBookById store (jsTrim (aid.getD ""))) := by
  constructor
  · intro h
    simp [author_delete_post, h]
  · intro h
    simp [book_delete_post, h]

theorem claim_C10_witness :
    booksByAuthor
        (⟨[⟨"a1", "Ann", "Zed", none, none⟩, ⟨"a2", "Bob", "Low", none, none⟩],
          [⟨"b1", "T", "a1", "S", "9", []⟩], [], []⟩ : Store) "a1" ≠ [] ∧
    booksByAuthor
        (⟨[⟨"a1", "Ann", "Zed", none, none⟩, ⟨"a2", "Bob", "Low", none, none⟩],
          [⟨"b1", "T", "a1", "S", "9", []⟩], [], []⟩ : Store) "a2" = [] ∧
    (author_delete_post
        (⟨[⟨"a1", "Ann", "Zed", none, none⟩, ⟨"a2", "Bob", "Low", none, none⟩],
          [⟨"b1", "T", "a1", "S", "9", []⟩], [], []⟩ : Store) "a2" (some "a1")).2
      = removeAuthorById
        (⟨[⟨"a1", "Ann", "Zed", none, none⟩, ⟨"a2", "Bob", "Low", none, none⟩],
          [⟨"b1", "T", "a1", "S", "9", []⟩], [], []⟩ : Store) "a1" ∧
    (author_delete_post
        (⟨[⟨"a1", "Ann", "Zed", none, none⟩, ⟨"a2", "Bob", "Low", none, none⟩],
          [⟨"b1", "T", "a1", "S", "9", []⟩], [], []⟩ : Store) "a2" (some "a1")).2.authors
      = [⟨"a2", "Bob", "Low", none, none⟩] := by
  have h := (claim_C10
    (⟨[⟨"a1", "Ann", "Zed", none, none⟩, ⟨"a2", "Bob", "Low", none, none⟩],
      [⟨"b1", "T", "a1", "S", "9", []⟩], [], []⟩ : Store) "a2" (some "a1")).1 (by decide)
  refine ⟨by decide, by decide, h, ?_⟩
  rw [h]
  decide

/-- Claim C7 (counterexample): the author list workflow does not return its
entities sorted ascending by the natural key `name` (the full-name virtual).
With two stored authors sharing the first name "Ann", the `first_name` sort
keeps their store order, and the resulting names "Ann Zed", "Ann Abe" are
out of order. -/
theorem claim_C7_cex :
    ¬ List.Sorted (fun a b => strLe (authorName a) (authorName b) = true)
      (authorListSorted
        (⟨[⟨"a1", "Ann", "Zed", none, none⟩, ⟨"a2", "Ann", "Abe", none, none⟩],
          [], [], []⟩ : Store)) := by
  decide

/-- Claim C7 (amended): the author list is sorted ascending by the
`first_name` field (not by the full-name natural key) and the book list is
sorted ascending by `title`; the book-instance list carries no sort clause
and is returned in store (natural) order. -/
theorem claim_C7_amended (store : Store) :
    List.Sorted authorFirstNameLe (authorListSorted store) ∧
    List.Sorted bookTitleLe (bookListSorted store) ∧
    author_list store = .render (.authorList "Author List" (authorListSorted store)) ∧
    book_list store = .render (.bookList "Book List" (bookListSorted store)) ∧
    bookinstance_list store = .render (.instanceList "Book Instance List" store.instances) :=
  ⟨List.sorted_insertionSort _ _, List.sorted_insertionSort _ _, rfl, rfl, rfl⟩

/-- On validation success, `author_create_post` reduces to the dedup lookup
followed by either a redirect to the existing record or a save. -/
theorem author_create_post_success (store : Store) (f : AuthorForm) (id : String)
    (he : authorFormErrors f = []) :
    author_create_post store f id =
      match findAuthorByName store (mkAuthorCandidate f id).first_name
          (mkAuthorCandidate f id).family_name with
      | some e => (.redirect (authorUrl e.id), store)
      | none => (.redirect (authorUrl (mkAuthorCandidate f id).id),
          saveAuthor store (mkAuthorCandidate f id)) := by
  simp [author_create_post, he]

/-- On validation success, `book_create_post` reduces to the dedup lookup
followed by either a redirect to the existing record or a save. -/
theorem book_create_post_success (store : Store) (f : BookForm) (id : String)
    (he : bookFormErrors "ISBN must not be empty." f = []) :
    book_create_post store f id =
      match findBookByTitle store (mkBookCandidate f id).title with
      | some e => (.redirect (bookUrl e.id), store)
      | none => (.redirect (bookUrl (mkBookCandidate f id).id),
          saveBook store (mkBookCandidate f id)) := by
  simp [book_create_post, he]

/-- Claim C1: for a valid Author submission whose sanitized name pair is not
already stored, creating twice in sequence leaves exactly one stored record
with that name pair, the second submission returns the first's redirect
target and writes nothing; likewise for a Book submission deduplicated by
title. -/
theorem claim_C1 :
    (∀ (store : Store) (f : AuthorForm) (id1 id2 : String),
      authorFormErrors f = [] →
      findAuthorByName store (mkAuthorCandidate f id1).first_name
          (mkAuthorCandidate f id1).family_name = none →
      (author_create_post (author_create_post store f id1).2 f id2).1
          = (author_create_post store f id1).1 ∧
      (author_create_post (author_create_post store f id1).2 f id2).2
          = (author_create_post store f id1).2 ∧
      (author_create_post store f id1).2.authors.countP
          (fun a => a.first_name == (mkAuthorCandidate f id1).first_name
            && a.family_name == (mkAuthorCandidate f id1).family_name) = 1) ∧
    (∀ (store : Store) (f : BookForm) (id1 id2 : String),
      bookFormErrors "ISBN must not be empty." f = [] →
      findBookByTitle store (mkBookCandidate f id1).title = none →
      (book_create_post (book_create_post store f id1).2 f id2).1
          = (book_create_post store f id1).1 ∧
      (book_create_post (book_create_post store f id1).2 f id2).2
          = (book_create_post store f id1).2 ∧
      (book_create_post store f id1).2.books.countP
          (fun b => b.title == (mkBookCandidate f id1).title) = 1) := by
  constructor
  · intro store f id1 id2 he hfind
    have hfind' : store.authors.find?
        (fun a => a.first_name == (mkAuthorCandidate f id1).first_name
          && a.family_name == (mkAuthorCandidate f id1).family_name) = none := hfind
    have hp : (fun a => a.first_name == (mkAuthorCandidate f id1).first_name
        && a.family_name == (mkAuthorCandidate f id1).family_name)
        (mkAuthorCandidate f id1) = true := by simp
    have h1 : author_create_post store f id1
        = (.redirect (authorUrl (mkAuthorCandidate f id1).id),
            saveAuthor store (mkAuthorCandidate f id1)) := by
      rw [author_create_post_success store f id1 he, hfind]
    have hfind2 : findAuthorByName (saveAuthor store (mkAuthorCandidate f id1))
        (mkAuthorCandidate f id2).first_name (mkAuthorCandidate f id2).family_name
        = some (mkAuthorCandidate f id1) := by
      have e1 : (mkAuthorCandidate f id2).first_name
          = (mkAuthorCandidate f id1).first_name := rfl
      have e2 : (mkAuthorCandidate f id2).family_name
          = (mkAuthorCandidate f id1).family_name := rfl
      rw [e1, e2]
      show (store.authors ++ [mkAuthorCandidate f id1]).find? _ = _
      rw [List.find?_append, hfind']
      simp [hp]
    have h2 : author_create_post (saveAuthor store (mkAuthorCandidate f id1)) f id2
        = (.redirect (authorUrl (mkAuthorCandidate f id1).id),
            saveAuthor store (mkAuthorCandidate f id1)) := by
      rw [author_create_post_success _ f id2 he, hfind2]
    have hzero : store.authors.countP
        (fun a => a.first_name == (mkAuthorCandidate f id1).first_name
          && a.family_name == (mkAuthorCandidate f id1).family_name) = 0 := by
      rw [List.countP_eq_zero]
      intro a ha
      have := List.find?_eq_none.mp hfind' a ha
      simpa using this
    refine ⟨?_, ?_, ?_⟩
    · rw [h1, h2]
    · rw [h1, h2]
    · rw [h1]
      show (store.authors ++ [mkAuthorCandidate f id1]).countP _ = 1
      rw [List.countP_append, hzero]
      simp [hp]
  · intro store f id1 id2 he hfind
    have hfind' : store.books.find?
        (fun b => b.title == (mkBookCandidate f id1).title) = none := hfind
    have hp : (fun b => b.title == (mkBookCandidate f id1).title)
        (mkBookCandidate f id1) = true := by simp
    have h1 : book_create_post store f id1
        = (.redirect (bookUrl (mkBookCandidate f id1).id),
            saveBook store (mkBookCandidate f id1)) := by
      rw [book_create_post_success store f id1 he, hfind]
    have hfind2 : findBookByTitle (saveBook store (mkBookCandidate f id1))
        (mkBookCandidate f id2).title = some (mkBookCandidate f id1) := by
      have e1 : (mkBookCandidate f id2).title = (mkBookCandidate f id1).title := rfl
      rw [e1]
      show (store.books ++ [mkBookCandidate f id1]).find? _ = _
      rw [List.find?_append, hfind']
      simp [hp]
    have h2 : book_create_post (saveBook store (mkBookCandidate f id1)) f id2
        = (.redirect (bookUrl (mkBookCandidate f id1).id),
            saveBook store (mkBookCandidate f id1)) := by
      rw [book_create_post_success _ f id2 he, hfind2]
    have hzero : store.books.countP
        (fun b => b.title == (mkBookCandidate f id1).title) = 0 := by
      rw [List.countP_eq_zero]
      intro b hb
      have := List.find?_eq_none.mp hfind' b hb
      simpa using this
    refine ⟨?_, ?_, ?_⟩
    · rw [h1, h2]
    · rw [h1, h2]
    · rw [h1]
      show (store.books ++ [mkBookCandidate f id1]).countP _ = 1
      rw [List.countP_append, hzero]
      simp [hp]

theorem claim_C1_witness :
    authorFormErrors ⟨some "John", some "Smith", none, none⟩ = [] ∧
    findAuthorByName (⟨[], [], [], []⟩ : Store) "John" "Smith" = none ∧
    (author_create_post
        (author_create_post (⟨[], [], [], []⟩ : Store)
          ⟨some "John", some "Smith", none, none⟩ "i1").2
        ⟨some "John", some "Smith", none, none⟩ "i2").1
      = (author_create_post (⟨[], [], [], []⟩ : Store)
          ⟨some "John", some "Smith", none, none⟩ "i1").1 ∧
    (author_create_post (⟨[], [], [], []⟩ : Store)
        ⟨some "John", some "Smith", none, none⟩ "i1").2.authors.countP
        (fun a => a.first_name == "John" && a.family_name == "Smith") = 1 ∧
    (book_create_post
        (book_create_post (⟨[], [], [], []⟩ : Store)
          ⟨some "T", some "a1", some "S", some "9", .absent⟩ "b1").2
        ⟨some "T", some "a1", some "S", some "9", .absent⟩ "b2").1
      = (book_create_post (⟨[], [], [], []⟩ : Store)
          ⟨some "T", some "a1", some "S", some "9", .absent⟩ "b1").1 := by
  have ha := claim_C1.1 (⟨[], [], [], []⟩ : Store)
    ⟨some "John", some "Smith", none, none⟩ "i1" "i2" (by decide) (by decide)
  have hb := claim_C1.2 (⟨[], [], [], []⟩ : Store)
    ⟨some "T", some "a1", some "S", some "9", .absent⟩ "b1" "b2" (by decide) (by decide)
  exact ⟨by decide, by decide, ha.1, ha.2.2, hb.1⟩

end LocalLibrary
